import Mathlib

/-!
Shallow embedding of the connectivity and state-synchronization core of
src/firmware/nomad-display/src/main.cpp (nomad-pi display firmware).

Time is modelled as `Nat` milliseconds (the value of `millis()`); the
unsigned subtractions `millis() - t` of the source become truncated `Nat`
subtraction, which agrees with the 32-bit unsigned arithmetic whenever the
clock has not wrapped.  External effects (the Wi-Fi radio, the WebSocket
library, HTTP responses, mDNS, the JSON parser of ArduinoJson and the UDP
socket) are passed in as explicit inputs of each modelled function, and the
`lv_...` widget calls are projected into plain record fields.
-/

namespace NomadDisplay

/-- Raw JSON fields of one element of the `sessions` array, as read by
`updateDashboardUI` (absent fields are `none`; doubles are modelled as `Rat`). -/
structure SessionJson where
  session_id : Option String
  title : Option String
  username : Option String
  media_type : Option String
  state : Option String
  current_time : Option Rat
  duration : Option Rat
  poster_thumb : Option String
  poster_url : Option String
  bitrate : Option Nat
deriving DecidableEq, Repr

/-- Raw JSON fields of the `system` object, as read by `updateDashboardUI`. -/
structure SystemJson where
  cpu_percent : Rat
  ram_percent : Rat
  disk_percent : Rat
  active_users : Int
  uptime_seconds : Nat
  network_down_bps : Nat
  network_up_bps : Nat
deriving DecidableEq, Repr

/-- A successfully parsed dashboard payload: the `sessions` array and the
`system` object handed to `updateDashboardUI`. -/
structure DashPayload where
  sessions : List SessionJson
  system : SystemJson
deriving DecidableEq, Repr

/-- Projection of the focused (first) session into the widget values the
code writes (`np_title`, `np_meta`, progress bar, pause flag). -/
structure FocusView where
  sessionId : String
  title : String
  stateStr : String
  cur : Nat
  dur : Nat
  isPaused : Bool
deriving DecidableEq, Repr

/-- The canonical dashboard view produced by one `updateDashboardUI` call. -/
structure DashView where
  cpu : Rat
  ram : Rat
  disk : Rat
  activeUsers : Int
  uptime : Nat
  sessionsCount : Nat
  focused : Option FocusView
deriving DecidableEq, Repr

/-- Model of `isIpAddress` (main.cpp lines 370-378): length at least 7 and
every character a decimal digit or a dot. -/
def isIpAddress (s : String) : Bool :=
  if s.length < 7 then false
  else s.data.all fun c => decide (('0' ≤ c ∧ c ≤ '9') ∨ c = '.')

/-- Model of the time-clamping block of `updateDashboardUI`
(main.cpp lines 1428-1434): defaults already applied, doubles as `Rat`,
the `(uint32_t)` casts as floor-to-Nat (faithful for in-range values).
Returns the clamped `(cur, dur)` pair. -/
def projectTimes (cur_f dur_f : Rat) : Nat × Nat :=
  let cur_f := if cur_f < 0 then 0 else cur_f
  let dur_f := if dur_f < 0 then 0 else dur_f
  let cur : Nat := (Rat.floor cur_f).toNat
  let dur : Nat := (Rat.floor dur_f).toNat
  let cur := if 0 < dur ∧ dur < cur then dur else cur
  (cur, dur)

/-- Poster URL selection of `updateDashboardUI` (lines 1488-1489):
`poster_thumb` falling back to `poster_url`. -/
def posterUrlOf (s : SessionJson) : Option String :=
  match s.poster_thumb with
  | some u => some u
  | none => s.poster_url

/-- Result of one poster-fetch decision (main.cpp lines 1490-1527). -/
structure PosterStep where
  attempted : Bool
  last_poster_fetch_ms : Nat
  current_poster_url : String
deriving DecidableEq, Repr

/-- Model of the poster-fetch decision of `updateDashboardUI`
(main.cpp lines 1490-1527): `current_url` is `current_poster_url`,
`last_fetch` is `last_poster_fetch_ms`, `u` the session poster URL,
`dlOk` the outcome of `downloadPoster` (on success the URL is stored
truncated to 255 characters by `strncpy`). -/
def posterFetchStep (current_url : String) (last_fetch : Nat) (u : String)
    (now : Nat) (dlOk : Bool) : PosterStep :=
  let url_changed := decide (current_url ≠ u)
  let retry_due := (!url_changed) && decide (30000 < now - last_fetch)
  let time_ok := decide (15000 < now - last_fetch)
  let fire := time_ok && (url_changed || retry_due)
  { attempted := fire
    last_poster_fetch_ms := if fire then now else last_fetch
    current_poster_url :=
      if fire then (if dlOk then String.mk (u.data.take 255) else current_url)
      else current_url }

/-- The global mutable variables of main.cpp that the connectivity core
reads and writes (lines 53-142), bundled as one record.  UI label writes
are represented by the `ui_*` fields (`ui_conn_line1`, `ui_conn_line2`,
the status colour reduced to a red flag, and `ui_conn_dirty`), and the
last successfully decoded dashboard payload by `dash`. -/
structure DState where
  wifi_ssid : String
  server_ip : String
  server_port : Int
  is_connected : Bool
  ws_configured : Bool
  last_ws_begin_ms : Nat
  ws_host : String
  ws_port : Int
  mdns_started : Bool
  discovered_server_ip : String
  discovered_server_port : Int
  last_server_ip : String
  last_http_poll_ms : Nat
  discovery_dirty : Bool
  last_http_success_ms : Nat
  ws_payload_ready : Bool
  ws_payload : String
  last_ws_process_ms : Nat
  last_poster_fetch_ms : Nat
  current_poster_url : String
  np_session_id : String
  np_is_paused : Bool
  ui_conn_line1 : String
  ui_conn_line2 : String
  ui_status_red : Bool
  ui_conn_dirty : Bool
  dash : Option DashView
deriving DecidableEq, Repr

/-- One received and JSON-parsed UDP packet as seen by `checkUDP`:
whether `doc["type"] == "discovery"`, the announced `doc["port"]`, and the
sender address `udp.remoteIP().toString()`. -/
structure UdpPacket where
  typeIsDiscovery : Bool
  port : Int
  remoteIp : String
deriving DecidableEq, Repr

/-- Model of `checkUDP` (main.cpp lines 1624-1654).  `pkt` is `none` when
no packet arrived or the packet failed to parse as JSON; otherwise it
carries the parsed fields.  On a discovery packet from a non-zero address
the discovered address/port are overwritten, persisted into
`last_server_ip`, and `discovery_dirty` is raised iff the value changed. -/
def checkUDP (st : DState) (pkt : Option UdpPacket) : DState :=
  match pkt with
  | none => st
  | some p =>
    if p.typeIsDiscovery then
      if p.remoteIp ≠ "0.0.0.0" then
        let changed := decide (st.discovered_server_ip ≠ p.remoteIp) ||
                       decide (st.discovered_server_port ≠ p.port)
        { st with
            discovered_server_ip := p.remoteIp
            discovered_server_port := p.port
            last_server_ip := p.remoteIp
            discovery_dirty := st.discovery_dirty || changed }
      else st
    else st

/-- Model of the server-address resolution block of `tryConnectWebSocket`
(main.cpp lines 1141-1169).  `mdnsStartOk` is the result of `MDNS.begin`
and `mdnsResult` the string form of `MDNS.queryHost("nomadpi")`
(which is "0.0.0.0" on failure). -/
def resolveServer (st : DState) (mdnsStartOk : Bool) (mdnsResult : String) : DState :=
  if st.wifi_ssid = "NomadPi" then
    { st with server_ip := "10.42.0.1" }
  else if 0 < st.discovered_server_ip.length then
    { st with server_ip := st.discovered_server_ip
              server_port := st.discovered_server_port }
  else
    let st := if !st.mdns_started then { st with mdns_started := mdnsStartOk } else st
    if st.mdns_started then
      if mdnsResult ≠ "0.0.0.0" then
        { st with
            discovered_server_ip := mdnsResult
            discovered_server_port := st.server_port
            last_server_ip := mdnsResult
            server_ip := mdnsResult }
      else { st with server_ip := "" }
    else { st with server_ip := "" }

/-- The tail of `tryConnectWebSocket` after address resolution
(main.cpp lines 1171-1208): bail out with a waiting message on an empty
address, skip when the very same host/port is already configured, and
otherwise stamp the attempt time, disconnect any configured channel and
issue the `webSocket.begin` (the returned `Bool`). -/
def wsBeginDecision (st : DState) (now : Nat) : DState × Bool :=
  if st.server_ip.length = 0 then
    ({ st with ui_conn_line1 := "Server: Waiting discovery"
               ui_conn_line2 := ""
               ui_conn_dirty := true }, false)
  else if st.server_ip.length < 64 then
    if st.ws_host = st.server_ip ∧ st.ws_port = st.server_port ∧ st.ws_configured then
      (st, false)
    else
      let st := { st with ws_host := st.server_ip, ws_port := st.server_port }
      let st := { st with ui_conn_line1 := "Connecting..."
                          ui_conn_line2 := st.ws_host ++ ":" ++ toString st.ws_port
                          ui_conn_dirty := true }
      ({ st with last_ws_begin_ms := now, ws_configured := true }, true)
  else (st, false)

/-- Model of `tryConnectWebSocket` (main.cpp lines 1136-1209): clear the
dirty flag, resolve the server address, then decide whether to begin.
The returned `Bool` is true exactly when a `webSocket.begin` was issued. -/
def tryConnectWebSocket (st : DState) (wifiUp : Bool) (mdnsStartOk : Bool)
    (mdnsResult : String) (now : Nat) : DState × Bool :=
  if !wifiUp then (st, false) else
  let st := if st.discovery_dirty then { st with discovery_dirty := false } else st
  wsBeginDecision (resolveServer st mdnsStartOk mdnsResult) now

/-- The fresh-pull teardown block of `loop` (main.cpp lines 261-267),
executed while `WiFi.status() == WL_CONNECTED`: while the push channel is
down but the pull path has had a success within 30 s, any configured
WebSocket is disconnected and deconfigured. -/
def wsTeardownFreshPull (st : DState) (now : Nat) : DState :=
  if !st.is_connected ∧ now - st.last_http_success_ms < 30000 then
    if st.ws_configured then
      { st with ws_configured := false, ws_host := "" }
    else st
  else st

/-- The gated reconnect of `loop` lines 269-274, run after the teardown
block; returns whether `tryConnectWebSocket` issued a `webSocket.begin`. -/
def wsManage (st : DState) (mdnsStartOk : Bool) (mdnsResult : String)
    (now : Nat) : DState × Bool :=
  let st := wsTeardownFreshPull st now
  if (!st.ws_configured || st.discovery_dirty) ∧ 15000 < now - st.last_ws_begin_ms then
    let st := { st with discovery_dirty := false }
    if 30000 ≤ now - st.last_http_success_ms then
      tryConnectWebSocket st true mdnsStartOk mdnsResult now
    else (st, false)
  else (st, false)

/-- Events delivered by the WebSocket library to `webSocketEvent`
(`WStype_CONNECTED`, `WStype_DISCONNECTED`, `WStype_ERROR`,
`WStype_TEXT` with its payload). -/
inductive WsEvent where
  | connected
  | disconnected
  | error
  | text (payload : String)
deriving DecidableEq, Repr

/-- Model of `webSocketEvent` (main.cpp lines 1211-1254).  A text frame
whose length is 0 or above 20000 is dropped; otherwise it is copied into
the single-slot mailbox and the ready flag is set.  The disconnect status
is surfaced only when the last successful contact is more than 20 s old;
an error event surfaces its status unconditionally. -/
def webSocketEvent (st : DState) (ev : WsEvent) (now : Nat) : DState :=
  match ev with
  | .connected =>
      { st with
          ui_conn_line1 := "Nomad Pi: Online"
          ui_conn_line2 := st.ws_host ++ ":" ++ toString st.ws_port
          ui_status_red := false
          ui_conn_dirty := true
          is_connected := true
          last_http_success_ms := now }
  | .disconnected =>
      let st :=
        if 20000 < now - st.last_http_success_ms then
          { st with
              ui_conn_line1 := "Nomad Pi: Disconnected"
              ui_conn_line2 := "Retrying..."
              ui_status_red := true
              ui_conn_dirty := true }
        else st
      { st with is_connected := false }
  | .error =>
      { st with
          ui_conn_line1 := "Nomad Pi: WS Error"
          ui_conn_line2 := "Retrying..."
          ui_status_red := true
          ui_conn_dirty := true
          is_connected := false }
  | .text payload =>
      if payload.length = 0 ∨ 20000 < payload.length then st
      else { st with ws_payload := payload, ws_payload_ready := true }

/-- Projection of the first session into the Now Playing widget values
(main.cpp lines 1417-1486), with the `| default` fallbacks of the source. -/
def projectSessionView (s : SessionJson) : FocusView :=
  let td := projectTimes (s.current_time.getD 0) (s.duration.getD 0)
  { sessionId := String.mk ((s.session_id.getD "").data.take 63)
    title := s.title.getD "Unknown"
    stateStr := s.state.getD "unknown"
    cur := td.1
    dur := td.2
    isPaused := decide (s.state.getD "" = "paused") }

/-- The whole-screen view assembled by one `updateDashboardUI` call
(system stats of lines 1340-1404 plus the focused session). -/
def projectDash (p : DashPayload) : DashView :=
  { cpu := p.system.cpu_percent
    ram := p.system.ram_percent
    disk := p.system.disk_percent
    activeUsers := p.system.active_users
    uptime := p.system.uptime_seconds
    sessionsCount := p.sessions.length
    focused := p.sessions.head?.map projectSessionView }

/-- Model of `updateDashboardUI` (main.cpp lines 1338-1529): replaces the
dashboard view wholesale, updates `np_session_id` / `np_is_paused` /
the empty-list reset, and runs the poster-fetch decision on the focused
session's poster URL.  `dlOk` is the outcome of `downloadPoster`. -/
def updateDashboardUI (st : DState) (p : DashPayload) (now : Nat) (dlOk : Bool) : DState :=
  let st := { st with dash := some (projectDash p) }
  match p.sessions with
  | [] => { st with np_session_id := "", current_poster_url := "" }
  | s :: _ =>
    let st := { st with
        np_session_id := String.mk ((s.session_id.getD "").data.take 63)
        np_is_paused := decide (s.state.getD "" = "paused") }
    match posterUrlOf s with
    | none => st
    | some u =>
      let ps := posterFetchStep st.current_poster_url st.last_poster_fetch_ms u now dlOk
      { st with
          last_poster_fetch_ms := ps.last_poster_fetch_ms
          current_poster_url := ps.current_poster_url }

/-- Model of `processWsMessage` (main.cpp lines 1282-1295).  `jsonParse`
stands for `deserializeJson` on the mailbox contents; `none` is a
`DeserializationError`.  On parse failure the function returns before
touching `last_http_success_ms` or the dashboard view. -/
def processWsMessage (jsonParse : String → Option DashPayload) (st : DState)
    (now : Nat) (dlOk : Bool) : DState :=
  if !st.ws_payload_ready then st
  else if now - st.last_ws_process_ms < 250 then st
  else
    let st := { st with ws_payload_ready := false, last_ws_process_ms := now }
    match jsonParse st.ws_payload with
    | none => st
    | some p =>
        let st := { st with last_http_success_ms := now }
        updateDashboardUI st p now dlOk

/-- Model of `pollDashboardHttp` (main.cpp lines 1297-1336).  `code` is the
`http.GET()` result (200 on success, a non-200 status or a negative
timeout/connection error otherwise) and `body` the parse result of the
response stream when `code = 200`.  The returned `Bool` is true exactly
when an HTTP request was issued. -/
def pollDashboardHttp (st : DState) (code : Int) (body : Option DashPayload)
    (now : Nat) (dlOk : Bool) : DState × Bool :=
  if now - st.last_http_poll_ms < 5000 then (st, false) else
  let st := { st with last_http_poll_ms := now }
  if st.server_ip.length = 0 then (st, false) else
  if !isIpAddress st.server_ip ∧ st.server_ip ≠ "10.42.0.1" then (st, false) else
  if code = 200 then
    match body with
    | some p =>
        let st := { st with
            last_http_success_ms := now
            ui_conn_line1 := "Nomad Pi: Online"
            ui_conn_line2 := "HTTP " ++ st.server_ip ++ ":" ++ toString st.server_port
            ui_status_red := false
            ui_conn_dirty := true }
        (updateDashboardUI st p now dlOk, true)
    | none => (st, true)
  else
    if 20000 < now - st.last_http_success_ms then
      ({ st with
          ui_conn_line1 := "Nomad Pi: Disconnected"
          ui_conn_line2 := "HTTP err " ++ toString code
          ui_status_red := true
          ui_conn_dirty := true }, true)
    else (st, true)

/-- An HTTP POST request as issued by the session-command functions. -/
structure HttpPost where
  url : String
  body : String
deriving DecidableEq, Repr

/-- Model of `stopSession` (main.cpp lines 1656-1670): the guards drop the
command silently; otherwise exactly one POST is issued.  `wifiUp` is
`WiFi.status() == WL_CONNECTED`. -/
def stopSession (st : DState) (wifiUp : Bool) (now : Nat)
    (session_id : String) : Option HttpPost :=
  if !wifiUp then none
  else if st.server_ip.length = 0 then none
  else if !st.is_connected ∧ 30000 < now - st.last_http_success_ms then none
  else some
    { url := "http://" ++ st.server_ip ++ ":" ++ toString st.server_port ++
             "/api/dashboard/session/" ++ session_id ++ "/command"
      body := "\x7b\"action\":\"stop\"\x7d" }

/-- Model of `pauseSession` (main.cpp lines 1672-1686): same guards as
`stopSession`; the action toggles between pause and resume on
`np_is_paused`. -/
def pauseSession (st : DState) (wifiUp : Bool) (now : Nat)
    (session_id : String) : Option HttpPost :=
  if !wifiUp then none
  else if st.server_ip.length = 0 then none
  else if !st.is_connected ∧ 30000 < now - st.last_http_success_ms then none
  else
    let action := if st.np_is_paused then "resume" else "pause"
    some
      { url := "http://" ++ st.server_ip ++ ":" ++ toString st.server_port ++
               "/api/dashboard/session/" ++ session_id ++ "/command"
        body := "\x7b\"action\":\"" ++ action ++ "\"\x7d" }

/-- One round of the inner capacity-growth `while` loop of
`downloadPoster` (main.cpp lines 1563-1570), fuel-indexed so that the
definition stays structurally recursive: starting from `cap`, while the
pending `want` bytes do not fit in `cap - used` and `cap < 500000`, add
`max (cap / 2) 16384` and clamp at 500000 (the source's
`if (next_cap == cap) break` guard is kept verbatim).  The growth adds at
least 16384 per round, so 64 rounds always suffice to reach the fixpoint. -/
def growCapFuel : Nat → Nat → Nat → Nat → Nat
  | 0, _, _, cap => cap
  | fuel + 1, want, used, cap =>
    if cap - used < want ∧ cap < 500000 then
      let grow := max (cap / 2) 16384
      let next := min (cap + grow) 500000
      if next = cap then cap else growCapFuel fuel want used next
    else cap

/-- The capacity-growth loop of `downloadPoster` with its fuel fixed. -/
def growCap (want used cap : Nat) : Nat := growCapFuel 64 want used cap

/-- Model of the streaming read loop of `downloadPoster`
(main.cpp lines 1554-1585) over a list of `stream->available()` chunk
sizes (a 0 entry is a round where no data was ready yet; the list ending
is the connection closing).  `readBytes` is modelled as delivering the
requested bytes in full and `realloc` as succeeding.  Returns the final
`(cap, used)`. -/
def readChunks : List Nat → Nat → Nat → Nat × Nat
  | [], cap, used => (cap, used)
  | avail :: rest, cap, used =>
    if avail = 0 then readChunks rest cap used
    else
      let want := avail
      let cap2 := if cap - used < want then growCap want used cap else cap
      let want2 := if cap2 - used < want then cap2 - used else want
      if want2 = 0 then (cap2, used)
      else if cap2 ≤ used + want2 then (cap2, used + want2)
      else readChunks rest cap2 (used + want2)

/-- Final observables of one `downloadPoster` body read
(main.cpp lines 1544-1612): final buffer capacity, bytes stored, and
whether the image-decode block (`if (used > 0) { ... }`) was entered. -/
structure DlResult where
  cap : Nat
  used : Nat
  decodeAttempted : Bool
deriving DecidableEq, Repr

/-- Model of the buffer management of `downloadPoster` for a 200 response
(main.cpp lines 1544-1612): initial capacity from `Content-Length`
(`http.getSize()`, negative when unknown) clamped at 500000, else 65536;
then the streaming read loop; decode is attempted whenever at least one
byte was stored. -/
def downloadPosterModel (contentLength : Int) (chunks : List Nat) : DlResult :=
  let cap0 : Nat := if 0 < contentLength then min contentLength.toNat 500000 else 65536
  let r := readChunks chunks cap0 0
  { cap := r.1, used := r.2, decodeAttempted := decide (0 < r.2) }

/-- The boot-time values of the modelled globals
(main.cpp lines 53-80 and 140-142). -/
def bootState : DState :=
  { wifi_ssid := ""
    server_ip := ""
    server_port := 8000
    is_connected := false
    ws_configured := false
    last_ws_begin_ms := 0
    ws_host := ""
    ws_port := 8000
    mdns_started := false
    discovered_server_ip := ""
    discovered_server_port := 8000
    last_server_ip := ""
    last_http_poll_ms := 0
    discovery_dirty := false
    last_http_success_ms := 0
    ws_payload_ready := false
    ws_payload := ""
    last_ws_process_ms := 0
    last_poster_fetch_ms := 0
    current_poster_url := ""
    np_session_id := ""
    np_is_paused := false
    ui_conn_line1 := "Nomad Pi: Disconnected"
    ui_conn_line2 := ""
    ui_status_red := true
    ui_conn_dirty := false
    dash := none }

/-- Claim C3: for every decoded session whose duration is known and
positive, the projected current time never exceeds the duration, and a
negative current time is clamped to 0 (main.cpp lines 1427-1443). -/
theorem c3_session_time_clamped (cf df : Rat) :
    (0 < (projectTimes cf df).2 → (projectTimes cf df).1 ≤ (projectTimes cf df).2) ∧
    (cf < 0 → (projectTimes cf df).1 = 0) := by
  constructor
  · unfold projectTimes
    dsimp only
    intro h
    split_ifs at h ⊢ <;> omega
  · unfold projectTimes
    dsimp only
    intro hneg
    rw [if_pos hneg]
    have h0 : (Rat.floor 0).toNat = 0 := rfl
    split_ifs <;> omega

/-- Witness for C3 at the spec's example: duration 120, current time 150
is clamped to at most 120. -/
theorem c3_witness :
    0 < (projectTimes 150 120).2 ∧ (projectTimes 150 120).1 ≤ (projectTimes 150 120).2 :=
  ⟨by decide, (c3_session_time_clamped 150 120).1 (by decide)⟩

/-- Claim C7: a poster fetch is attempted only when more than 15 s have
elapsed since the previous attempt (which restamps the attempt time), and
with an unchanged URL it is attempted exactly when more than 30 s have
elapsed (main.cpp lines 1490-1527). -/
theorem c7_poster_fetch_rate_limited (cu : String) (lf : Nat) (u : String)
    (now : Nat) (ok : Bool) :
    ((posterFetchStep cu lf u now ok).attempted = true →
      15000 < now - lf ∧ (posterFetchStep cu lf u now ok).last_poster_fetch_ms = now) ∧
    (cu = u → ((posterFetchStep cu lf u now ok).attempted = true ↔ 30000 < now - lf)) := by
  by_cases hch : cu = u <;> by_cases h15 : 15000 < now - lf <;>
    by_cases h30 : 30000 < now - lf <;>
    simp_all [posterFetchStep] <;> omega

/-- Witness for C7: an unchanged URL whose last attempt is 40 s old is
fetched again, and the attempt time is restamped. -/
theorem c7_witness :
    (15000 < 40000 - 0 ∧
      (posterFetchStep "p.jpg" 0 "p.jpg" 40000 true).last_poster_fetch_ms = 40000) ∧
    ((posterFetchStep "p.jpg" 0 "p.jpg" 40000 true).attempted = true ↔ 30000 < 40000 - 0) :=
  ⟨(c7_poster_fetch_rate_limited "p.jpg" 0 "p.jpg" 40000 true).1 (by decide),
   (c7_poster_fetch_rate_limited "p.jpg" 0 "p.jpg" 40000 true).2 rfl⟩

/-- Helper: the whole effect of `resolveServer` under the captive-AP SSID
is to overwrite `server_ip` with the gateway literal. -/
theorem resolveServer_nomadpi (st : DState) (b : Bool) (r : String)
    (h : st.wifi_ssid = "NomadPi") :
    resolveServer st b r = { st with server_ip := "10.42.0.1" } := by
  unfold resolveServer
  rw [if_pos h]

/-- Claim C8: with the joined SSID equal to "NomadPi" the locator always
resolves the server address to the hardcoded gateway 10.42.0.1, whatever
the cached discovery address or the mDNS outcome
(main.cpp lines 1141-1143). -/
theorem c8_nomadpi_resolves_gateway (st : DState) (b : Bool) (r : String)
    (h : st.wifi_ssid = "NomadPi") :
    (resolveServer st b r).server_ip = "10.42.0.1" := by
  rw [resolveServer_nomadpi st b r h]

/-- Witness for C8: even with a cached discovery address and a successful
mDNS answer present, the NomadPi SSID forces the gateway address. -/
theorem c8_witness :
    (resolveServer
      { bootState with wifi_ssid := "NomadPi", discovered_server_ip := "192.168.1.50" }
      true "192.168.1.99").server_ip = "10.42.0.1" :=
  c8_nomadpi_resolves_gateway _ true "192.168.1.99" rfl

/-- Helper for C9: when the server address fails `isIpAddress` and is not
the gateway literal, the pull path issues no request. -/
theorem poll_skips_non_ip (st : DState) (code : Int) (body : Option DashPayload)
    (now : Nat) (ok : Bool)
    (hipf : isIpAddress st.server_ip = false) (hgw : st.server_ip ≠ "10.42.0.1") :
    (pollDashboardHttp st code body now ok).2 = false := by
  unfold pollDashboardHttp
  dsimp only
  split_ifs with h1 h2 h3 <;>
    first
      | rfl
      | exact absurd ⟨by simp [hipf], hgw⟩ h3

/-- Claim C9: the pull path issues an HTTP status request only when the
current server address is all digits-and-dots of length at least 7, or is
the gateway literal; hence a textual hostname is never polled
(main.cpp lines 1297-1303 and 370-378). -/
theorem c9_poll_requires_ip_address (st : DState) (code : Int)
    (body : Option DashPayload) (now : Nat) (ok : Bool) :
    ((pollDashboardHttp st code body now ok).2 = true →
      isIpAddress st.server_ip = true ∨ st.server_ip = "10.42.0.1") ∧
    (isIpAddress st.server_ip = false → st.server_ip ≠ "10.42.0.1" →
      (pollDashboardHttp st code body now ok).2 = false) := by
  constructor
  · intro hissued
    by_cases hip : isIpAddress st.server_ip = true
    · exact Or.inl hip
    · by_cases hgw : st.server_ip = "10.42.0.1"
      · exact Or.inr hgw
      · rw [poll_skips_non_ip st code body now ok
          (Bool.not_eq_true _ ▸ Bool.eq_false_iff.mpr hip) hgw] at hissued
        cases hissued
  · exact poll_skips_non_ip st code body now ok

/-- Witness for C9: the textual hostname "nomadpi.local" is never polled. -/
theorem c9_witness :
    (pollDashboardHttp { bootState with server_ip := "nomadpi.local" }
      200 none 6000 true).2 = false :=
  (c9_poll_requires_ip_address _ 200 none 6000 true).2 (by decide) (by decide)

/-- Claim C10: a stop or pause/resume command issues its single POST iff
Wi-Fi is up, a server address is resolved, and the push channel is up or
the last successful contact is at most 30 s old; otherwise it is silently
dropped (main.cpp lines 1656-1686). -/
theorem c10_session_command_gating (st : DState) (w : Bool) (now : Nat) (sid : String) :
    ((stopSession st w now sid).isSome = true ↔
      (w = true ∧ st.server_ip.length ≠ 0 ∧
        (st.is_connected = true ∨ now - st.last_http_success_ms ≤ 30000))) ∧
    ((pauseSession st w now sid).isSome = true ↔
      (w = true ∧ st.server_ip.length ≠ 0 ∧
        (st.is_connected = true ∨ now - st.last_http_success_ms ≤ 30000))) := by
  unfold stopSession pauseSession
  rcases Bool.eq_false_or_eq_true st.is_connected with hb | hb <;>
    (constructor <;> (split_ifs with h1 h2 h3 <;> simp_all <;> omega))

/-- Claim C2: an inbound push payload that fails to decode — oversized
(above the 20000-byte cap of `webSocketEvent`) or not parseable JSON
(`deserializeJson` error in `processWsMessage`) — leaves the dashboard
view, the last-successful-contact timestamp and the connection UI
untouched (main.cpp lines 1245-1252 and 1282-1295). -/
theorem c2_decode_failure_preserves_state (jsonParse : String → Option DashPayload)
    (st : DState) (p : String) (now : Nat) (ok : Bool)
    (hready : st.ws_payload_ready = false)
    (hfail : 20000 < p.length ∨ jsonParse p = none) :
    (processWsMessage jsonParse (webSocketEvent st (.text p) now) now ok).dash = st.dash ∧
    (processWsMessage jsonParse (webSocketEvent st (.text p) now) now ok).last_http_success_ms
      = st.last_http_success_ms ∧
    (processWsMessage jsonParse (webSocketEvent st (.text p) now) now ok).ui_conn_dirty
      = st.ui_conn_dirty := by
  unfold webSocketEvent
  dsimp only
  by_cases hdrop : p.length = 0 ∨ 20000 < p.length
  · rw [if_pos hdrop]
    unfold processWsMessage
    rw [hready]
    simp
  · rw [if_neg hdrop]
    have hparse : jsonParse p = none := by
      rcases hfail with h | h
      · exact absurd (Or.inr h) hdrop
      · exact h
    unfold processWsMessage
    dsimp only
    split_ifs <;>
      first
        | exact ⟨rfl, rfl, rfl⟩
        | (rw [hparse]; exact ⟨rfl, rfl, rfl⟩)

/-- Witness for C2: a one-byte frame that the parser rejects changes
neither the dashboard view nor the contact timestamp nor the UI flag. -/
theorem c2_witness :
    (processWsMessage (fun _ => none) (webSocketEvent bootState (.text "x") 1000)
        1000 true).dash = bootState.dash ∧
    (processWsMessage (fun _ => none) (webSocketEvent bootState (.text "x") 1000)
        1000 true).last_http_success_ms = bootState.last_http_success_ms ∧
    (processWsMessage (fun _ => none) (webSocketEvent bootState (.text "x") 1000)
        1000 true).ui_conn_dirty = bootState.ui_conn_dirty :=
  c2_decode_failure_preserves_state (fun _ => none) bootState "x" 1000 true rfl (Or.inr rfl)

/-- A state whose last successful contact is 0.1 s old with the push
channel connected, used to exercise the grace-window logic. -/
def stFreshContact : DState :=
  { bootState with is_connected := true, last_http_success_ms := 900 }

/-- Counterexample for C4: a push-channel error event surfaces the
user-visible "WS Error" status immediately even though the last
successful contact is only 0.1 s old — well inside the 20 s grace
window (main.cpp lines 1235-1244 have no staleness check). -/
theorem c4_error_in_grace_counterexample :
    1000 - stFreshContact.last_http_success_ms ≤ 20000 ∧
    (webSocketEvent stFreshContact .error 1000).ui_conn_dirty = true ∧
    (webSocketEvent stFreshContact .error 1000).ui_conn_line1 = "Nomad Pi: WS Error" ∧
    (webSocketEvent stFreshContact .error 1000).ui_status_red = true := by
  refine ⟨by decide, rfl, rfl, rfl⟩

/-- Claim C4 (amended): a push-channel disconnect and an HTTP non-200 or
timeout surface a user-visible disconnected status only when more than
20 s have elapsed since the last successful contact — inside the grace
window the disconnect only silently clears the connected flag and the
poll leaves the UI untouched — but a push-channel error event sets the
user-visible "WS Error" status unconditionally
(main.cpp lines 1223-1244 and 1328-1335). -/
theorem c4_grace_window_amended (st : DState) (now : Nat) (code : Int)
    (body : Option DashPayload) (ok : Bool)
    (hgrace : now - st.last_http_success_ms ≤ 20000) :
    webSocketEvent st .disconnected now = { st with is_connected := false } ∧
    (code ≠ 200 →
      (pollDashboardHttp st code body now ok).1.ui_conn_line1 = st.ui_conn_line1 ∧
      (pollDashboardHttp st code body now ok).1.ui_conn_dirty = st.ui_conn_dirty) ∧
    (webSocketEvent st .error now).ui_conn_dirty = true ∧
    (webSocketEvent st .error now).ui_conn_line1 = "Nomad Pi: WS Error" := by
  refine ⟨?_, ?_, rfl, rfl⟩
  · unfold webSocketEvent
    rw [if_neg (by omega)]
  · intro hcode
    unfold pollDashboardHttp
    dsimp only
    split_ifs with h1 h2 h3 h4 h5 <;>
      first
        | exact ⟨rfl, rfl⟩
        | exact absurd h4 hcode
        | omega

/-- Witness for C4 (amended) at a fresh-contact state and a timed-out
poll (`http.GET()` returning -1). -/
theorem c4_witness :
    webSocketEvent stFreshContact .disconnected 1000
      = { stFreshContact with is_connected := false } ∧
    (pollDashboardHttp stFreshContact (-1) none 6000 true).1.ui_conn_line1
      = stFreshContact.ui_conn_line1 ∧
    (webSocketEvent stFreshContact .error 1000).ui_conn_dirty = true :=
  ⟨(c4_grace_window_amended stFreshContact 1000 (-1) none true (by decide)).1,
   ((c4_grace_window_amended stFreshContact 6000 (-1) none true (by decide)).2.1
      (by decide)).1,
   (c4_grace_window_amended stFreshContact 1000 (-1) none true (by decide)).2.2.1⟩

/-- Helper: the fresh-pull teardown block never changes the timers, the
dirty flag or the connected flag. -/
theorem wsTeardown_fields (st : DState) (now : Nat) :
    (wsTeardownFreshPull st now).last_ws_begin_ms = st.last_ws_begin_ms ∧
    (wsTeardownFreshPull st now).last_http_success_ms = st.last_http_success_ms ∧
    (wsTeardownFreshPull st now).discovery_dirty = st.discovery_dirty ∧
    (wsTeardownFreshPull st now).is_connected = st.is_connected := by
  unfold wsTeardownFreshPull
  split_ifs <;> exact ⟨rfl, rfl, rfl, rfl⟩

/-- Helper: whenever the begin decision issues a `webSocket.begin`, it
stamps `last_ws_begin_ms` with the current time. -/
theorem wsBegin_stamp (st : DState) (now : Nat)
    (h : (wsBeginDecision st now).2 = true) :
    (wsBeginDecision st now).1.last_ws_begin_ms = now := by
  unfold wsBeginDecision at h ⊢
  split_ifs at h ⊢ <;> simp_all

/-- Helper: whenever `tryConnectWebSocket` issues a `webSocket.begin`, it
stamps `last_ws_begin_ms` with the current time. -/
theorem tryConnect_begin_stamp (st : DState) (w b : Bool) (r : String) (now : Nat)
    (h : (tryConnectWebSocket st w b r now).2 = true) :
    (tryConnectWebSocket st w b r now).1.last_ws_begin_ms = now := by
  unfold tryConnectWebSocket at h ⊢
  dsimp only at h ⊢
  split_ifs at h ⊢ <;>
    first
      | simp at h
      | exact wsBegin_stamp _ now h

/-- Helper: a `webSocket.begin` issued by the loop's reconnect block
implies both gates held at decision time and restamps the attempt time. -/
theorem wsManage_gate (st : DState) (b : Bool) (r : String) (now : Nat)
    (h : (wsManage st b r now).2 = true) :
    15000 < now - st.last_ws_begin_ms ∧ 30000 ≤ now - st.last_http_success_ms ∧
    (wsManage st b r now).1.last_ws_begin_ms = now := by
  obtain ⟨e1, e2, _, _⟩ := wsTeardown_fields st now
  unfold wsManage at h ⊢
  dsimp only at h ⊢
  split_ifs at h ⊢ with hC hD <;>
    first
      | simp at h
      | refine ⟨by rw [e1] at hC; exact hC.2, by rw [e2] at hD; exact hD,
          tryConnect_begin_stamp _ _ _ _ _ h⟩

/-- Claim C5: while the network is up, the loop's reconnect block starts
a push-channel connection attempt only when more than 15 s have passed
since the previous attempt and at least 30 s since the last successful
contact (so it is skipped whenever the pull path succeeded within 30 s),
and two consecutive attempts are always more than 15 s apart
(main.cpp lines 260-275 and 1136-1209). -/
theorem c5_ws_reconnect_rate_limited (st : DState) (b b2 : Bool) (r r2 : String)
    (now now2 : Nat) :
    ((wsManage st b r now).2 = true →
      15000 < now - st.last_ws_begin_ms ∧ 30000 ≤ now - st.last_http_success_ms ∧
      (wsManage st b r now).1.last_ws_begin_ms = now) ∧
    ((wsManage st b r now).2 = true →
      (wsManage (wsManage st b r now).1 b2 r2 now2).2 = true →
      15000 < now2 - now) := by
  constructor
  · exact wsManage_gate st b r now
  · intro h1 h2
    have hlt := (wsManage_gate _ b2 r2 now2 h2).1
    rw [(wsManage_gate st b r now h1).2.2] at hlt
    exact hlt

/-- A boot-time state already joined to the captive AP, used as the
concrete reconnect scenario. -/
def bootNomad : DState := { bootState with wifi_ssid := "NomadPi" }

/-- Witness for C5: the first attempt 40 s after boot satisfies both
gates and restamps the attempt time. -/
theorem c5_witness :
    15000 < 40000 - bootNomad.last_ws_begin_ms ∧
    30000 ≤ 40000 - bootNomad.last_http_success_ms ∧
    (wsManage bootNomad true "0.0.0.0" 40000).1.last_ws_begin_ms = 40000 :=
  (c5_ws_reconnect_rate_limited bootNomad true true "0.0.0.0" "0.0.0.0" 40000 0).1
    (by decide)

/-- A connected steady state on a home network: push channel configured
and live, a cached discovery address, last attempt at t=50 s, last
successful contact at t=59 s. -/
def stPush : DState :=
  { bootState with
      wifi_ssid := "HomeWifi"
      server_ip := "192.168.1.50"
      is_connected := true
      ws_configured := true
      ws_host := "192.168.1.50"
      discovered_server_ip := "192.168.1.50"
      last_server_ip := "192.168.1.50"
      last_ws_begin_ms := 50000
      last_http_success_ms := 59000 }

/-- Counterexample for C1: a discovery packet announcing a different
server address sets the dirty flag, yet on the next tick (t=60 s, 10 s
after the last attempt) the controller neither tears the push channel
down nor reconnects — the 15 s gate still applies — and on a later tick
(t=70 s) the gate passes but the 30 s contact condition consumes the
dirty flag without reconnecting (main.cpp lines 269-274). -/
theorem c1_discovery_change_counterexample :
    (checkUDP stPush (some ⟨true, 9000, "192.168.1.77"⟩)).discovery_dirty = true ∧
    wsManage (checkUDP stPush (some ⟨true, 9000, "192.168.1.77"⟩)) false "0.0.0.0" 60000
      = (checkUDP stPush (some ⟨true, 9000, "192.168.1.77"⟩), false) ∧
    (wsManage (checkUDP stPush (some ⟨true, 9000, "192.168.1.77"⟩)) false "0.0.0.0"
        70000).2 = false ∧
    (wsManage (checkUDP stPush (some ⟨true, 9000, "192.168.1.77"⟩)) false "0.0.0.0"
        70000).1.discovery_dirty = false := by
  decide

/-- Claim C1 (amended): a differing discovery packet raises the dirty
flag; while the push channel is connected and the 15 s gate is closed the
next tick changes nothing; once the gate is open and the last successful
contact is at least 30 s old, the dirty flag does allow a fresh
`webSocket.begin` (which first tears down the configured channel) even
though a channel is already configured
(main.cpp lines 1624-1654 and 260-275). -/
theorem c1_discovery_change_gated_amended (st : DState) (p : UdpPacket) (b : Bool)
    (r : String) (now : Nat) :
    (p.typeIsDiscovery = true → p.remoteIp ≠ "0.0.0.0" →
      (st.discovered_server_ip ≠ p.remoteIp ∨ st.discovered_server_port ≠ p.port) →
      (checkUDP st (some p)).discovery_dirty = true) ∧
    (st.is_connected = true → now - st.last_ws_begin_ms ≤ 15000 →
      wsManage st b r now = (st, false)) ∧
    (st.is_connected = true → st.discovery_dirty = true →
      15000 < now - st.last_ws_begin_ms → 30000 ≤ now - st.last_http_success_ms →
      st.wifi_ssid = "NomadPi" → st.ws_host ≠ "10.42.0.1" →
      (wsManage st b r now).2 = true) := by
  refine ⟨?_, ?_, ?_⟩
  · intro ht hip hdiff
    unfold checkUDP
    dsimp only
    rw [if_pos ht, if_pos hip]
    rcases hdiff with hd | hd
    · have hdec : decide (st.discovered_server_ip ≠ p.remoteIp) = true := decide_eq_true hd
      simp [hdec]
    · have hdec : decide (st.discovered_server_port ≠ p.port) = true := decide_eq_true hd
      simp [hdec]
  · intro hconn h15
    unfold wsManage
    dsimp only
    have ht : wsTeardownFreshPull st now = st := by
      unfold wsTeardownFreshPull
      rw [if_neg]
      intro hc
      rw [hconn] at hc
      simp at hc
    rw [ht, if_neg (fun hc => absurd hc.2 (by omega))]
  · intro hconn hdirty h15 h30 hssid hhost
    unfold wsManage
    dsimp only
    have ht : wsTeardownFreshPull st now = st := by
      unfold wsTeardownFreshPull
      rw [if_neg]
      intro hc
      rw [hconn] at hc
      simp at hc
    rw [ht, if_pos ⟨by simp [hdirty], h15⟩, if_pos h30]
    unfold tryConnectWebSocket
    dsimp only
    rw [if_neg (by simp), if_neg (by simp)]
    rw [resolveServer_nomadpi { st with discovery_dirty := false } b r hssid]
    unfold wsBeginDecision
    dsimp only
    rw [if_neg (by decide), if_pos (by decide),
      if_neg (fun hc => hhost hc.1)]

/-- The steady state of `stPush` after joining the captive AP with a
pending discovery change and stale contact, used as the reconnect case. -/
def stDirty : DState :=
  { stPush with wifi_ssid := "NomadPi", discovery_dirty := true,
                last_http_success_ms := 0 }

/-- Witness for C1 (amended): a differing packet raises the flag on
`stPush`, and on `stDirty` (gate open, contact stale) the flag yields a
fresh begin. -/
theorem c1_witness :
    (checkUDP stPush (some ⟨true, 9000, "192.168.1.77"⟩)).discovery_dirty = true ∧
    (wsManage stDirty false "0.0.0.0" 70000).2 = true :=
  ⟨(c1_discovery_change_gated_amended stPush ⟨true, 9000, "192.168.1.77"⟩ false
      "0.0.0.0" 0).1 rfl (by decide) (Or.inl (by decide)),
   (c1_discovery_change_gated_amended stDirty ⟨true, 9000, "192.168.1.77"⟩ false
      "0.0.0.0" 70000).2.2 rfl rfl (by decide) (by decide) rfl (by decide)⟩

/-- Helper: the growth loop never shrinks the capacity. -/
theorem growCapFuel_ge (f w u cap : Nat) : cap ≤ growCapFuel f w u cap := by
  induction f generalizing cap with
  | zero => exact le_refl _
  | succ n ih =>
    unfold growCapFuel
    dsimp only
    split_ifs with hg hn
    · exact le_refl _
    · have h1 : 16384 ≤ max (cap / 2) 16384 := le_max_right _ _
      exact le_trans (by omega) (ih (min (cap + max (cap / 2) 16384) 500000))
    · exact le_refl _

/-- Helper: the growth loop never exceeds the 500000-byte ceiling. -/
theorem growCapFuel_le (f w u cap : Nat) (h : cap ≤ 500000) :
    growCapFuel f w u cap ≤ 500000 := by
  induction f generalizing cap with
  | zero => exact h
  | succ n ih =>
    unfold growCapFuel
    dsimp only
    split_ifs with hg hn
    · exact h
    · exact ih _ (by omega)
    · exact h

/-- Helper: one growth call either leaves the capacity alone, raises it
by at least 16384 bytes, or clamps it to exactly 500000. -/
theorem growCapFuel_step (f w u cap : Nat) :
    growCapFuel f w u cap = cap ∨ 16384 ≤ growCapFuel f w u cap - cap ∨
    growCapFuel f w u cap = 500000 := by
  induction f generalizing cap with
  | zero => exact Or.inl rfl
  | succ n ih =>
    unfold growCapFuel
    dsimp only
    split_ifs with hg hn
    · exact Or.inl rfl
    · have h1 : 16384 ≤ max (cap / 2) 16384 := le_max_right _ _
      have hge := growCapFuel_ge n w u (min (cap + max (cap / 2) 16384) 500000)
      rcases ih (min (cap + max (cap / 2) 16384) 500000) with h | h | h
      · rw [h]; omega
      · right; left; omega
      · exact Or.inr (Or.inr h)
    · exact Or.inl rfl

/-- Helper: when the pending bytes already fit, the capacity is untouched
(growth happens only as needed). -/
theorem growCapFuel_noop (f w u cap : Nat) (h : ¬ cap - u < w) :
    growCapFuel (f + 1) w u cap = cap := by
  unfold growCapFuel
  rw [if_neg (fun hc => h hc.1)]

/-- Helper: `growCap` never shrinks the capacity. -/
theorem growCap_ge (w u cap : Nat) : cap ≤ growCap w u cap :=
  growCapFuel_ge 64 w u cap

/-- Helper: `growCap` never exceeds the ceiling. -/
theorem growCap_le (w u cap : Nat) (h : cap ≤ 500000) : growCap w u cap ≤ 500000 :=
  growCapFuel_le 64 w u cap h

/-- Helper: the streaming read loop keeps `used` within the capacity and
the capacity within the ceiling. -/
theorem readChunks_inv (l : List Nat) (cap used : Nat) (hc : cap ≤ 500000)
    (hu : used ≤ cap) :
    (readChunks l cap used).2 ≤ (readChunks l cap used).1 ∧
    (readChunks l cap used).1 ≤ 500000 := by
  induction l generalizing cap used with
  | nil => exact ⟨hu, hc⟩
  | cons a rest ih =>
    unfold readChunks
    dsimp only
    have hge := growCap_ge a used cap
    have hle := growCap_le a used cap hc
    split_ifs <;>
      first
        | exact ih _ _ hc hu
        | exact ⟨by omega, by omega⟩
        | exact ih _ _ (by omega) (by omega)

/-- Claim C6 (amended): the poster receive buffer stays within the
500000-byte ceiling and `used` never exceeds the capacity; the buffer
grows only when the pending bytes do not fit, and each growth adds at
least 16 KB except when it clamps to exactly 500000; but a body larger
than the cap does not abort the fetch — whatever prefix was stored is
still handed to the image decoders (main.cpp lines 1544-1612). -/
theorem c6_poster_buffer_amended (len : Int) (chunks : List Nat) (w u c : Nat) :
    (downloadPosterModel len chunks).used ≤ (downloadPosterModel len chunks).cap ∧
    (downloadPosterModel len chunks).cap ≤ 500000 ∧
    (¬ c - u < w → growCap w u c = c) ∧
    (growCap w u c = c ∨ 16384 ≤ growCap w u c - c ∨ growCap w u c = 500000) ∧
    (0 < (downloadPosterModel len chunks).used →
      (downloadPosterModel len chunks).decodeAttempted = true) := by
  have hcap0 : (if (0:Int) < len then min len.toNat 500000 else 65536) ≤ 500000 := by
    split_ifs <;> omega
  unfold downloadPosterModel
  dsimp only
  refine ⟨(readChunks_inv chunks _ 0 hcap0 (Nat.zero_le _)).1,
    (readChunks_inv chunks _ 0 hcap0 (Nat.zero_le _)).2,
    fun h => growCapFuel_noop 63 w u c h,
    growCapFuel_step 64 w u c,
    fun h => decide_eq_true h⟩

/-- Witness for C6 (amended): a small download stays within bounds, and a
capacity with enough free room is not grown. -/
theorem c6_witness :
    ((downloadPosterModel 1000 [400, 600]).used ≤
        (downloadPosterModel 1000 [400, 600]).cap ∧
      (downloadPosterModel 1000 [400, 600]).cap ≤ 500000) ∧
    growCap 10 0 65536 = 65536 :=
  ⟨⟨(c6_poster_buffer_amended 1000 [400, 600] 10 0 65536).1,
    (c6_poster_buffer_amended 1000 [400, 600] 10 0 65536).2.1⟩,
   (c6_poster_buffer_amended 1000 [400, 600] 10 0 65536).2.2.1 (by decide)⟩

/-- Counterexample for C6: an unknown-length response streaming 500001
bytes is truncated at the 500000-byte capacity, yet decode is still
attempted on the truncated prefix (the fetch is not aborted), and on this
very growth path the final step from 497664 raises the capacity by only
2336 bytes — less than 16 KB (main.cpp lines 1554-1612). -/
theorem c6_truncation_counterexample :
    (downloadPosterModel (-1) [500001]).used = 500000 ∧
    (downloadPosterModel (-1) [500001]).decodeAttempted = true ∧
    growCap 500001 0 497664 = 500000 ∧
    500000 - 497664 < 16384 := by
  decide

end NomadDisplay
